import Mathlib

/-!
Shallow embedding of `src/main.rs` (ESP32 soil humidity sensor, Rust
reference implementation).  Machine integers are modelled as `Nat` with
explicit reductions modulo `2^16`, `2^32` or `2^8` at the points where the
Rust code performs wrapping arithmetic or truncating casts.
-/

namespace SoilSensor

/-- Rust: `const DRY_SOIL: u16 = 3000` — sensor reading in completely dry soil. -/
def DRY_SOIL : Nat := 3000

/-- Rust: `const WET_SOIL: u16 = 1200` — sensor reading in very wet soil. -/
def WET_SOIL : Nat := 1200

/-- Rust: `const MOISTURE_LOW: u8 = 25`. -/
def MOISTURE_LOW : Nat := 25

/-- Rust: `const MOISTURE_HIGH: u8 = 75`. -/
def MOISTURE_HIGH : Nat := 75

/-- Rust: `const READING_INTERVAL_MS: u64 = 2000`. -/
def READING_INTERVAL_MS : Nat := 2000

/-- Rust: `fn raw_to_moisture_percent(raw_value: u16) -> u8`.
The intermediate product is computed in `u32` (hence the reduction modulo
`2^32`), the quotient is cast to `u8` (reduction modulo `2^8`), and the
result is clamped with `.min(100)`.  `raw_value` ranges over `u16`. -/
def raw_to_moisture_percent (raw_value : Nat) : Nat :=
  let percentage : Nat :=
    if raw_value ≥ DRY_SOIL then 0
    else if raw_value ≤ WET_SOIL then 100
    else
      let range := DRY_SOIL - WET_SOIL
      let offset := DRY_SOIL - raw_value
      (((offset * 100) % 2 ^ 32) / range) % 2 ^ 8
  min percentage 100

/-- The soil condition names carried by the strings the code returns. -/
inductive SoilCondition where
  | Dry
  | Optimal
  | Wet
  deriving DecidableEq, Repr

/-- The human-readable label attached to each condition in the source. -/
def SoilCondition.label : SoilCondition → String
  | .Dry => "DRY - Need Water!"
  | .Optimal => "OPTIMAL"
  | .Wet => "WET - Too Much Water!"

/-- Rust: `fn get_soil_condition(moisture_percent: u8) -> (&'static str, bool)`;
the string is abstracted by the `SoilCondition` tag carrying it
(`SoilCondition.label` recovers the exact source strings). -/
def get_soil_condition (moisture_percent : Nat) : SoilCondition × Bool :=
  if moisture_percent < MOISTURE_LOW then (.Dry, true)
  else if moisture_percent > MOISTURE_HIGH then (.Wet, false)
  else (.Optimal, false)

/-- Pump actions: the loop body prints "WOULD ACTIVATE" when
`moisture_percent < MOISTURE_LOW`, "WOULD DEACTIVATE" when
`moisture_percent > MOISTURE_HIGH`, and nothing otherwise. -/
inductive PumpAction where
  | Activate
  | Deactivate
  | NoChange
  deriving DecidableEq, Repr

/-- The pump-control branch of the main loop (lines 163–167). -/
def pump_action (moisture_percent : Nat) : PumpAction :=
  if moisture_percent < MOISTURE_LOW then .Activate
  else if moisture_percent > MOISTURE_HIGH then .Deactivate
  else .NoChange

/-- One per-cycle actuation decision: LED state plus pump action. -/
structure ActuatorCommand where
  indicator_on : Bool
  pump : PumpAction
  deriving DecidableEq, Repr

/-- The single error kind a hardware-backed sensor could raise. -/
inductive SensorError where
  | ReadFailure
  deriving DecidableEq, Repr

/-- The ±100 noise term: `(elapsed as u16 % 200).wrapping_sub(100)`.
`elapsed` is a `u64` second count, first truncated to `u16`, reduced
modulo 200, then 100 is subtracted with wrap-around in `u16`. -/
def noise_term (elapsed : Nat) : Nat :=
  ((elapsed % 2 ^ 16) % 200 + (2 ^ 16 - 100)) % 2 ^ 16

/-- The raw reading `MockSoilSensor::read_averaged` produces:
`self.base_value.wrapping_add(noise)`. -/
def mock_reading (base_value elapsed : Nat) : Nat :=
  (base_value + noise_term elapsed) % 2 ^ 16

/-- Rust: `MockSoilSensor::read_averaged(&mut self, _samples: usize)`.
The `_samples` argument is received but unused; the code also constructs a
`DefaultHasher` and feeds `elapsed` into it, but never extracts its output
— `hasher` models that hash function, and its value is likewise dropped.
The result is unconditionally `Ok(reading)`. -/
def read_averaged (hasher : Nat → Nat) (base_value elapsed samples : Nat) :
    Except SensorError Nat :=
  let _h := hasher elapsed
  let _s := samples
  .ok (mock_reading base_value elapsed)

/-- Rust: `MockSoilSensor::set_soil_condition(&mut self, condition: &str)`:
the new `base_value`. -/
def set_soil_condition (condition : String) : Nat :=
  if condition = "dry" then 2800
  else if condition = "optimal" then 2000
  else if condition = "wet" then 1400
  else 2400

/-- The regime schedule in `main`: `["dry", "optimal", "wet", "optimal"]`. -/
def conditions : List String := ["dry", "optimal", "wet", "optimal"]

/-- Cycle count of the reference demonstration loop: `for _ in 0..20`. -/
def DEMO_CYCLES : Nat := 20

/-- Control-loop phases: `Sampling k` means `k` cycles have completed and
the loop body is about to run again; `Stopped` means the bounded
`for _ in 0..20` loop has exited. -/
inductive LoopPhase where
  | Sampling : Nat → LoopPhase
  | Stopped
  deriving DecidableEq, Repr

/-- The mutable state of `main`'s demonstration loop: the loop phase
(carrying `readings_count`), `condition_index`, the sensor's `base_value`,
and the actuator commands emitted so far. -/
structure LoopState where
  phase : LoopPhase
  condition_index : Nat
  base_value : Nat
  emitted : List ActuatorCommand

/-- Initial loop state: `MockSoilSensor::new()` sets `base_value = 2400`,
and `main` starts with `condition_index = 0`, `readings_count = 0`. -/
def initLoopState : LoopState :=
  { phase := .Sampling 0, condition_index := 0, base_value := 2400,
    emitted := [] }

/-- Regime change at the top of a cycle: when `readings_count % 5 == 0`,
`sensor.set_soil_condition(conditions[condition_index % conditions.len()])`
runs and `condition_index` is incremented.  Returns the updated pair
`(base_value, condition_index)`. -/
def regime_update (readings_count condition_index base_value : Nat) :
    Nat × Nat :=
  if readings_count % 5 = 0 then
    (set_soil_condition (conditions.getD (condition_index % conditions.length) ""),
     condition_index + 1)
  else (base_value, condition_index)

/-- One iteration of the demonstration loop (`main`, lines 136–178),
driven by `elapsed k` — the whole seconds elapsed before the read of cycle
`k` (wall-clock dependent, hence a parameter) — and a `hasher` modelling
the unused `DefaultHasher`.  On `Ok` the cycle computes the percentage,
the condition/LED pair and the pump action and emits one
`ActuatorCommand`; on `Err` it only logs.  Once `Stopped`, nothing runs. -/
def loop_step (hasher elapsed : Nat → Nat) (s : LoopState) : LoopState :=
  match s.phase with
  | .Stopped => s
  | .Sampling k =>
    if k < DEMO_CYCLES then
      let rc := regime_update k s.condition_index s.base_value
      match read_averaged hasher rc.1 (elapsed k) 5 with
      | .ok sensor_value =>
        let moisture_percent := raw_to_moisture_percent sensor_value
        let led_state := (get_soil_condition moisture_percent).2
        { phase := .Sampling (k + 1), condition_index := rc.2,
          base_value := rc.1,
          emitted := s.emitted ++ [⟨led_state, pump_action moisture_percent⟩] }
      | .error _ =>
        { phase := .Sampling (k + 1), condition_index := rc.2,
          base_value := rc.1, emitted := s.emitted }
    else { s with phase := .Stopped }

/-- Running the whole demonstration: iterate the loop step until past the
bounded cycle count. -/
def run_demo (hasher elapsed : Nat → Nat) : LoopState :=
  (loop_step hasher elapsed)^[DEMO_CYCLES + 1] initLoopState

/-- Modelled from the spec: a startup configuration record.  The reference
under `src/` compiles its configuration in as the constants `DRY_SOIL`,
`WET_SOIL`, `MOISTURE_LOW` and `MOISTURE_HIGH` and has no constructor that
receives one. -/
structure PipelineConfig where
  dry_reference : Nat
  wet_reference : Nat
  low : Nat
  high : Nat
  deriving DecidableEq, Repr

/-- Modelled from the spec: the single construction-time error kind of §7. -/
inductive ConfigError where
  | InvalidConfiguration
  deriving DecidableEq, Repr

/-- Modelled from the spec: construction-time validation, absent from
`src/`.  §7 requires violations of `dry_reference > wet_reference` or
`low < high` to be construction-time failures reported as a single
`InvalidConfiguration` kind that prevent the Control Loop from starting;
a valid configuration constructs successfully. -/
def validate_config (c : PipelineConfig) : Except ConfigError PipelineConfig :=
  if c.wet_reference < c.dry_reference ∧ c.low < c.high then .ok c
  else .error .InvalidConfiguration

/-- The configuration the reference compiles in. -/
def referenceConfig : PipelineConfig :=
  ⟨DRY_SOIL, WET_SOIL, MOISTURE_LOW, MOISTURE_HIGH⟩

/-- Overflow-free idealisation of `raw_to_moisture_percent`: same branch
structure, but the product, quotient and result are taken in unbounded
arithmetic with no `u8` cast and no `.min(100)` clamp. -/
def raw_to_moisture_percent_exact (raw_value : Nat) : Nat :=
  if raw_value ≥ DRY_SOIL then 0
  else if raw_value ≤ WET_SOIL then 100
  else ((DRY_SOIL - raw_value) * 100) / (DRY_SOIL - WET_SOIL)

/-- On the open interpolation interval the mapper computes the plain
truncated linear interpolation: the 32-bit reduction, the `u8` cast and
the clamp all leave the value unchanged there. -/
theorem raw_interp (raw : Nat) (h1 : 1200 < raw) (h2 : raw < 3000) :
    raw_to_moisture_percent raw = ((3000 - raw) * 100) / 1800 := by
  have hmod : (3000 - raw) * 100 % 2 ^ 32 = (3000 - raw) * 100 :=
    Nat.mod_eq_of_lt (by omega)
  simp only [raw_to_moisture_percent, DRY_SOIL, WET_SOIL, ge_iff_le]
  rw [if_neg (by omega), if_neg (by omega), hmod]
  omega

/-- Branch lemma: readings at or above the dry reference map to 0. -/
theorem raw_dry (raw : Nat) (h : 3000 ≤ raw) :
    raw_to_moisture_percent raw = 0 := by
  simp only [raw_to_moisture_percent, DRY_SOIL, WET_SOIL, ge_iff_le]
  rw [if_pos h]
  decide

/-- Branch lemma: readings at or below the wet reference map to 100. -/
theorem raw_wet (raw : Nat) (h : raw ≤ 1200) :
    raw_to_moisture_percent raw = 100 := by
  simp only [raw_to_moisture_percent, DRY_SOIL, WET_SOIL, ge_iff_le]
  rw [if_neg (by omega), if_pos h]
  decide

/-- C1: for every u16 raw reading, `raw_to_moisture_percent` returns 0 when
`raw ≥ DRY_SOIL` (3000), 100 when `raw ≤ WET_SOIL` (1200), and otherwise
the truncating linear interpolation
`((DRY_SOIL - raw) * 100) / (DRY_SOIL - WET_SOIL)`; the midpoint 2100 maps
to 50. -/
theorem calibration_mapper_spec (raw : Nat) (hraw : raw < 2 ^ 16) :
    (DRY_SOIL ≤ raw → raw_to_moisture_percent raw = 0) ∧
    (raw ≤ WET_SOIL → raw_to_moisture_percent raw = 100) ∧
    (WET_SOIL < raw → raw < DRY_SOIL →
      raw_to_moisture_percent raw =
        ((DRY_SOIL - raw) * 100) / (DRY_SOIL - WET_SOIL)) ∧
    raw_to_moisture_percent 2100 = 50 := by
  refine ⟨fun h => raw_dry raw h, fun h => raw_wet raw h,
    fun h1 h2 => raw_interp raw h1 h2, by decide⟩

/-- Witness for C1 at the midpoint raw reading 2100. -/
theorem calibration_mapper_spec_witness :
    2100 < 2 ^ 16 ∧
    ((DRY_SOIL ≤ 2100 → raw_to_moisture_percent 2100 = 0) ∧
     (2100 ≤ WET_SOIL → raw_to_moisture_percent 2100 = 100) ∧
     (WET_SOIL < 2100 → 2100 < DRY_SOIL →
       raw_to_moisture_percent 2100 =
         ((DRY_SOIL - 2100) * 100) / (DRY_SOIL - WET_SOIL)) ∧
     raw_to_moisture_percent 2100 = 50) :=
  ⟨by decide, calibration_mapper_spec 2100 (by decide)⟩

/-- C2: for every moisture percent in [0,100], `get_soil_condition`
returns `(Dry, true)` exactly when `percent < 25`, `(Wet, false)` exactly
when `percent > 75`, and `(Optimal, false)` otherwise; the boundaries 25
and 75 both classify as Optimal. -/
theorem classifier_spec (p : Nat) (hp : p ≤ 100) :
    (get_soil_condition p = (.Dry, true) ↔ p < MOISTURE_LOW) ∧
    (get_soil_condition p = (.Wet, false) ↔ MOISTURE_HIGH < p) ∧
    (get_soil_condition p = (.Optimal, false) ↔
      (MOISTURE_LOW ≤ p ∧ p ≤ MOISTURE_HIGH)) ∧
    get_soil_condition MOISTURE_LOW = (.Optimal, false) ∧
    get_soil_condition MOISTURE_HIGH = (.Optimal, false) := by
  refine ⟨?_, ?_, ?_, by decide, by decide⟩ <;>
    · simp only [get_soil_condition, MOISTURE_LOW, MOISTURE_HIGH, gt_iff_lt]
      split_ifs <;> simp <;> omega

/-- Witness for C2 at percent 50. -/
theorem classifier_spec_witness :
    50 ≤ 100 ∧
    ((get_soil_condition 50 = (.Dry, true) ↔ 50 < MOISTURE_LOW) ∧
     (get_soil_condition 50 = (.Wet, false) ↔ MOISTURE_HIGH < 50) ∧
     (get_soil_condition 50 = (.Optimal, false) ↔
       (MOISTURE_LOW ≤ 50 ∧ 50 ≤ MOISTURE_HIGH)) ∧
     get_soil_condition MOISTURE_LOW = (.Optimal, false) ∧
     get_soil_condition MOISTURE_HIGH = (.Optimal, false)) :=
  ⟨by decide, classifier_spec 50 (by decide)⟩

/-- C3: the end-to-end pipeline on the three reference scenarios:
raw 3000 → 0% → Dry, LED on, pump Activate; raw 1200 → 100% → Wet, LED
off, pump Deactivate; raw 2100 → 50% → Optimal, LED off, pump NoChange;
and the pump policy is Activate iff percent < 25, Deactivate iff
percent > 75, NoChange otherwise. -/
theorem pipeline_scenarios :
    (raw_to_moisture_percent 3000 = 0 ∧
      get_soil_condition 0 = (.Dry, true) ∧ pump_action 0 = .Activate) ∧
    (raw_to_moisture_percent 1200 = 100 ∧
      get_soil_condition 100 = (.Wet, false) ∧
      pump_action 100 = .Deactivate) ∧
    (raw_to_moisture_percent 2100 = 50 ∧
      get_soil_condition 50 = (.Optimal, false) ∧
      pump_action 50 = .NoChange) ∧
    (∀ p : Nat,
      (pump_action p = .Activate ↔ p < MOISTURE_LOW) ∧
      (pump_action p = .Deactivate ↔ MOISTURE_HIGH < p) ∧
      (pump_action p = .NoChange ↔
        (MOISTURE_LOW ≤ p ∧ p ≤ MOISTURE_HIGH))) := by
  refine ⟨by decide, by decide, by decide, fun p => ?_⟩
  refine ⟨?_, ?_, ?_⟩ <;>
    · simp only [pump_action, MOISTURE_LOW, MOISTURE_HIGH, gt_iff_lt]
      split_ifs <;> simp <;> omega

/-- C4: the mapper is antitone on the open interpolation interval: for
`WET_SOIL < raw1 < raw2 < DRY_SOIL`, moisture at `raw1` is at least
moisture at `raw2`. -/
theorem calibration_mapper_antitone (raw1 raw2 : Nat) (h1 : WET_SOIL < raw1)
    (h2 : raw1 < raw2) (h3 : raw2 < DRY_SOIL) :
    raw_to_moisture_percent raw2 ≤ raw_to_moisture_percent raw1 := by
  simp only [WET_SOIL, DRY_SOIL] at h1 h3
  rw [raw_interp raw1 h1 (by omega), raw_interp raw2 (by omega) h3]
  omega

/-- Witness for C4 at raw1 = 1500, raw2 = 2000. -/
theorem calibration_mapper_antitone_witness :
    WET_SOIL < 1500 ∧ 1500 < 2000 ∧ 2000 < DRY_SOIL ∧
    raw_to_moisture_percent 2000 ≤ raw_to_moisture_percent 1500 :=
  ⟨by decide, by decide, by decide,
    calibration_mapper_antitone 1500 2000 (by decide) (by decide) (by decide)⟩

/-- C5: for every u16 input the mapper's result is in [0,100]; the 32-bit
intermediate product does not overflow, the `u8` cast of the quotient is
lossless (the quotient is at most 100), and the `.min(100)` clamp is a
no-op: the result equals the unbounded-arithmetic, unclamped version. -/
theorem calibration_mapper_safe (raw : Nat) (hraw : raw < 2 ^ 16) :
    raw_to_moisture_percent raw ≤ 100 ∧
    raw_to_moisture_percent raw = raw_to_moisture_percent_exact raw ∧
    (WET_SOIL < raw → raw < DRY_SOIL →
      ((DRY_SOIL - raw) * 100) % 2 ^ 32 = (DRY_SOIL - raw) * 100 ∧
      ((DRY_SOIL - raw) * 100) / (DRY_SOIL - WET_SOIL) ≤ 100) := by
  simp only [raw_to_moisture_percent_exact, DRY_SOIL, WET_SOIL, ge_iff_le]
  by_cases hd : 3000 ≤ raw
  · rw [raw_dry raw hd, if_pos hd]
    exact ⟨by omega, rfl, by omega⟩
  · by_cases hw : raw ≤ 1200
    · rw [raw_wet raw hw, if_neg (by omega), if_pos hw]
      exact ⟨by omega, rfl, by omega⟩
    · rw [raw_interp raw (by omega) (by omega),
        if_neg (by omega), if_neg (by omega)]
      refine ⟨by omega, rfl, fun _ _ => ⟨Nat.mod_eq_of_lt (by omega), by omega⟩⟩

/-- Witness for C5 at raw reading 2100. -/
theorem calibration_mapper_safe_witness :
    2100 < 2 ^ 16 ∧
    (raw_to_moisture_percent 2100 ≤ 100 ∧
     raw_to_moisture_percent 2100 = raw_to_moisture_percent_exact 2100 ∧
     (WET_SOIL < 2100 → 2100 < DRY_SOIL →
       ((DRY_SOIL - 2100) * 100) % 2 ^ 32 = (DRY_SOIL - 2100) * 100 ∧
       ((DRY_SOIL - 2100) * 100) / (DRY_SOIL - WET_SOIL) ≤ 100)) :=
  ⟨by decide, calibration_mapper_safe 2100 (by decide)⟩

/-- C7: validating a configuration fails with the single
`InvalidConfiguration` kind exactly when `dry_reference > wet_reference`
or `low < high` is violated — so the Control Loop never starts on such a
configuration — and succeeds, returning the configuration, exactly when
both invariants hold; the reference configuration validates. -/
theorem config_validation (c : PipelineConfig) :
    (validate_config c = .error .InvalidConfiguration ↔
      (c.dry_reference ≤ c.wet_reference ∨ c.high ≤ c.low)) ∧
    (validate_config c = .ok c ↔
      (c.wet_reference < c.dry_reference ∧ c.low < c.high)) ∧
    validate_config referenceConfig = .ok referenceConfig := by
  refine ⟨?_, ?_, rfl⟩ <;>
    · simp only [validate_config]
      split_ifs <;> simp <;> omega

/-- C8: after `set_soil_condition("wet")` (baseline 1400), every
subsequent simulated reading lies in the band [1300, 1499] — at most 100
raw units from the wet baseline, with no wrap across u16 edges — and
feeding it through the mapper and classifier always (hence in the
majority of samples) yields the Wet condition: the reading never crosses
into a different classification band. -/
theorem wet_regime_band (elapsed : Nat) :
    set_soil_condition "wet" = 1400 ∧
    1400 - 100 ≤ mock_reading (set_soil_condition "wet") elapsed ∧
    mock_reading (set_soil_condition "wet") elapsed ≤ 1400 + 100 ∧
    (get_soil_condition (raw_to_moisture_percent
      (mock_reading (set_soil_condition "wet") elapsed))).1 = .Wet := by
  have hwet : set_soil_condition "wet" = 1400 := by decide
  rw [hwet]
  have hband : 1300 ≤ mock_reading 1400 elapsed ∧
      mock_reading 1400 elapsed ≤ 1499 := by
    simp only [mock_reading, noise_term]
    omega
  have hp := raw_interp (mock_reading 1400 elapsed) (by omega) (by omega)
  refine ⟨rfl, by omega, by omega, ?_⟩
  simp only [get_soil_condition, MOISTURE_LOW, MOISTURE_HIGH, gt_iff_lt]
  rw [if_neg (by omega), if_pos (by omega)]

/-- C9: the simulated `read_averaged` returns `Ok` for every internal
state, elapsed time and `samples` argument — it never produces a
`SensorError`, so the control loop's error branch is unreachable when
driven by the simulated source. -/
theorem read_averaged_total (hasher : Nat → Nat)
    (base_value elapsed samples : Nat) :
    read_averaged hasher base_value elapsed samples
      = .ok (mock_reading base_value elapsed) ∧
    ∀ e : SensorError,
      read_averaged hasher base_value elapsed samples ≠ .error e :=
  ⟨rfl, fun _ h => Except.noConfusion h⟩

/-- C10: the simulated reading is independent of the `samples` argument
and of the hash the code computes and drops: reads from equal baselines
with equal elapsed whole seconds agree for any two `samples` arguments
and any two hash functions, and the value is exactly the deterministic
function `mock_reading` of the baseline and the elapsed seconds. -/
theorem read_averaged_noninterference (hasher₁ hasher₂ : Nat → Nat)
    (base_value elapsed samples₁ samples₂ : Nat) :
    read_averaged hasher₁ base_value elapsed samples₁
      = read_averaged hasher₂ base_value elapsed samples₂ ∧
    read_averaged hasher₁ base_value elapsed samples₁
      = .ok (mock_reading base_value elapsed) :=
  ⟨rfl, rfl⟩

/-- Auxiliary: a loop state whose phase is `Stopped` is a fixed point of
the loop step. -/
theorem loop_step_stopped (hasher elapsed : Nat → Nat) (s : LoopState)
    (h : s.phase = .Stopped) : loop_step hasher elapsed s = s := by
  simp [loop_step, h]

/-- Auxiliary: from phase `Sampling k` with `n` cycles remaining, `n + 1`
loop steps reach `Stopped`, emitting exactly one actuator command per
remaining cycle (the simulated read always succeeds). -/
theorem loop_run_aux (hasher elapsed : Nat → Nat) (n : Nat) :
    ∀ k ci b em, k + n = DEMO_CYCLES →
      ((loop_step hasher elapsed)^[n + 1]
          ⟨.Sampling k, ci, b, em⟩).phase = .Stopped ∧
      ((loop_step hasher elapsed)^[n + 1]
          ⟨.Sampling k, ci, b, em⟩).emitted.length = em.length + n := by
  induction n with
  | zero =>
    intro k ci b em hk
    have hk20 : k = DEMO_CYCLES := by omega
    subst hk20
    simp [loop_step, DEMO_CYCLES]
  | succ n ih =>
    intro k ci b em hk
    have hklt : k < DEMO_CYCLES := by omega
    have hstep : loop_step hasher elapsed ⟨.Sampling k, ci, b, em⟩ =
        ⟨.Sampling (k + 1), (regime_update k ci b).2,
          (regime_update k ci b).1,
          em ++ [⟨(get_soil_condition (raw_to_moisture_percent
              (mock_reading (regime_update k ci b).1 (elapsed k)))).2,
            pump_action (raw_to_moisture_percent
              (mock_reading (regime_update k ci b).1 (elapsed k)))⟩]⟩ := by
      simp [loop_step, read_averaged, hklt]
    rw [Function.iterate_succ_apply, hstep]
    have h := ih (k + 1) (regime_update k ci b).2 (regime_update k ci b).1
      (em ++ [⟨(get_soil_condition (raw_to_moisture_percent
          (mock_reading (regime_update k ci b).1 (elapsed k)))).2,
        pump_action (raw_to_moisture_percent
          (mock_reading (regime_update k ci b).1 (elapsed k)))⟩])
      (by omega)
    refine ⟨h.1, ?_⟩
    rw [h.2]
    simp
    omega

/-- C6: in the finite demonstration mode (20 configured cycles) the
control loop terminates: for every wall-clock timing and hash function it
executes exactly `DEMO_CYCLES = 20` sampling cycles, emits exactly 20
actuator commands (one per cycle), and ends in the `Stopped` phase, which
is a fixed point of the loop step. -/
theorem demo_loop_bounded (hasher elapsed : Nat → Nat) :
    (run_demo hasher elapsed).phase = .Stopped ∧
    (run_demo hasher elapsed).emitted.length = DEMO_CYCLES ∧
    loop_step hasher elapsed (run_demo hasher elapsed)
      = run_demo hasher elapsed := by
  have h := loop_run_aux hasher elapsed DEMO_CYCLES 0 0 2400 [] (by omega)
  have hrun : run_demo hasher elapsed =
      (loop_step hasher elapsed)^[DEMO_CYCLES + 1]
        ⟨.Sampling 0, 0, 2400, []⟩ := rfl
  rw [hrun]
  exact ⟨h.1, by rw [h.2]; simp, loop_step_stopped hasher elapsed _ h.1⟩

end SoilSensor
